import Mathlib

/-!
Verification of the turf_server satellite pass predictor (`src/server.ts`).

The development shallowly embeds the three components of the server:

* the element-set fetcher `fetchTLE` with its 24-hour cache
  (`src/server.ts` lines 38-69),
* the pass-detection loop `calculatePasses` (`src/server.ts` lines 71-125),
* the coordinate validation of the request handler `passesPrediction`
  (`src/server.ts` lines 127-150).

Modelling conventions, stated once here:

* JavaScript `Date` values are modelled as `ℤ` milliseconds since the epoch
  (`date.toISOString()` composed with re-parsing is the identity on the
  millisecond value, so identifying a stored ISO string with its
  millisecond value is faithful).
* JavaScript numbers are modelled as exact real numbers `ℝ` in the pass
  detector (whose constants involve `π`) and as exact rationals `ℚ` in the
  request validation (whose constants are small decimals, exact in
  floating point).  `NaN` is modelled as `Option.none` where it can occur
  (the parsed coordinates).
* The external library `satellite.js` is out of scope of the repository
  (spec §1, §6); the composite `propagate` / `gstime` / `eciToEcf` /
  `ecfToLookAngles` pipeline is modelled as an abstract sample oracle
  `conv : Observer → ℤ → Option (ℝ × ℝ)` giving, at each sampled date, the
  raw look angles `(elevationRadians, azimuthRadians)` of the object for
  the given observer, or `none` when propagation yields no valid position
  (the `!positionAndVelocity.position || typeof ... === 'boolean'` test of
  line 90).  The conversions `satellite.degreesLat` / `satellite.degreesLong`
  are the library's radian-to-degree conversions, modelled from the spec's
  words ("converted to degrees", spec §4.3 step 4) as multiplication by
  `180 / π`.
* The network is modelled as an `Option String`: `none` is a failed remote
  retrieval (the `fetch` rejecting), `some data` a response whose text is
  `data`.  Whether the remote retrieval was issued at all is recorded in
  the `networkCalled` field of the fetcher's outcome.
-/

/-! ## Element-set fetcher (`fetchTLE`, lines 38-69) -/

/-- `TLEData` of `server.ts` lines 7-11: a two-line element set. -/
structure TLEData where
  name : String
  line1 : String
  line2 : String
deriving DecidableEq

/-- One entry of `tleCache` (line 38): the element set and its fetch time. -/
structure CacheEntry where
  tle : TLEData
  timestamp : ℤ
deriving DecidableEq

/-- The `tleCache` map (line 38), keyed by satellite identifier. -/
def TLECache : Type := String → Option CacheEntry

/-- `TLE_CACHE_DURATION` (line 39): 24 hours in milliseconds. -/
def TLE_CACHE_DURATION : ℤ := 24 * 60 * 60 * 1000

/-- Outcome of one `fetchTLE` call: the returned value or thrown error, the
cache after the call, and whether the remote `fetch` was issued. -/
structure FetchOutcome where
  result : Except String TLEData
  cache : TLECache
  networkCalled : Bool

/-- The cache lookup of lines 42-45: `some tle` exactly when an entry is
present and fresh (`now - cached.timestamp < TLE_CACHE_DURATION`). -/
def cacheHit (cache : TLECache) (satelliteId : String) (now : ℤ) : Option TLEData :=
  match cache satelliteId with
  | some cached =>
      if now - cached.timestamp < TLE_CACHE_DURATION then some cached.tle else none
  | none => none

/-- The `try` block of lines 47-68: issue the remote retrieval, split the
response text on `'\n'`, trim the first three lines, store and return the
element set.  A rejected `fetch` (`net = none`) and a response of fewer than
three lines (JavaScript throws a `TypeError` calling `.trim()` on
`undefined`, line 56 or 57) both land in the `catch` of lines 66-68, which
rethrows `Failed to fetch TLE data: ...`; the cache write of lines 60-63
happens only after the three lines were read. -/
def fetchRemote (cache : TLECache) (now : ℤ) (net : Option String)
    (satelliteId : String) : FetchOutcome :=
  match net with
  | none => ⟨.error "Failed to fetch TLE data: TypeError: fetch failed", cache, true⟩
  | some data =>
      match data.splitOn "\n" with
      | line0 :: line1 :: line2 :: _ =>
          let tle : TLEData := ⟨line0.trim, line1.trim, line2.trim⟩
          ⟨.ok tle, fun k => if k = satelliteId then some ⟨tle, now⟩ else cache k, true⟩
      | _ => ⟨.error "Failed to fetch TLE data: TypeError", cache, true⟩

/-- `fetchTLE` (lines 41-69): return the fresh cached element set if there is
one (no remote call), otherwise fall through to the remote retrieval. -/
def fetchTLE (cache : TLECache) (now : ℤ) (net : Option String)
    (satelliteId : String) : FetchOutcome :=
  match cacheHit cache satelliteId now with
  | some tle => ⟨.ok tle, cache, false⟩
  | none => fetchRemote cache now net satelliteId

/-! ## Request validation (`passesPrediction`, lines 127-150) -/

/-- Numeric value of a list of decimal digits, most significant first. -/
def digitsToNat (l : List Char) : ℕ :=
  l.foldl (fun a c => 10 * a + (c.toNat - 48)) 0

/-- The lexical part of `parseFloat`: skip leading whitespace, read an
optional sign, the integer digits and the optional fractional digits;
`none` (JavaScript `NaN`) when no digits are found at all. -/
def parseFloatParts (s : String) : Option (Bool × List Char × List Char) :=
  let cs := s.data.dropWhile fun c => c == ' ' || c == '\t' || c == '\n' || c == '\r'
  let signed : Bool × List Char :=
    match cs with
    | '-' :: r => (true, r)
    | '+' :: r => (false, r)
    | _ => (false, cs)
  let intPart := signed.2.takeWhile Char.isDigit
  let rest := signed.2.dropWhile Char.isDigit
  let fracPart : List Char :=
    match rest with
    | '.' :: r => r.takeWhile Char.isDigit
    | _ => []
  if intPart = [] ∧ fracPart = [] then none
  else some (signed.1, intPart, fracPart)

/-- Modelled from the spec: the JavaScript builtin `parseFloat` applied to the
decimal-degree strings of the request body ("coordinates given as
decimal-degree strings", spec §6).  It reads an optional sign, an integer
part and an optional fractional part, and yields `none` (JavaScript `NaN`)
when no digits are found.  Exponents and `Infinity`, which no spec sentence
exercises, are not modelled. -/
def parseFloat (s : String) : Option ℚ :=
  match parseFloatParts s with
  | none => none
  | some (neg, ip, fp) =>
      some ((if neg then (-1 : ℚ) else 1) *
        ((digitsToNat ip : ℚ) + (digitsToNat fp : ℚ) / (10 : ℚ) ^ fp.length))

/-- JavaScript `<` on numbers that may be `NaN` (`none`): any comparison
with `NaN` is false. -/
def jsLt (a b : Option ℚ) : Bool :=
  match a, b with
  | some x, some y => decide (x < y)
  | _, _ => false

/-- What the handler does with a request before any component is invoked:
either of the two early `400` responses, or `proceed`, which stands for the
rest of the handler body (lines 144-172): invoking `fetchTLE`, then
`twoline2satrec` and `calculatePasses`, with the parsed coordinates. -/
inductive HandlerStep where
  | missingParams
  | invalidCoords
  | proceed (latitude longitude : Option ℚ)
deriving DecidableEq

/-- Lines 129-142 of `passesPrediction`: the presence check (a JavaScript
falsy string is the empty string) and the coordinate-range check
`latitude < -90 || latitude > 90 || longitude < -180 || longitude > 180`,
evaluated with JavaScript comparison semantics on possibly-`NaN` parses. -/
def validateRequest (satelliteId lat lng : String) : HandlerStep :=
  if satelliteId = "" ∨ lat = "" ∨ lng = "" then .missingParams
  else
    let latitude := parseFloat lat
    let longitude := parseFloat lng
    if jsLt latitude (some (-90)) || jsLt (some 90) latitude
        || jsLt longitude (some (-180)) || jsLt (some 180) longitude then
      .invalidCoords
    else .proceed latitude longitude

/-! ## Pass detector (`calculatePasses`, lines 71-125) -/

noncomputable section

/-- JavaScript truncation toward zero, the rounding the `%` operator uses. -/
def truncR (x : ℝ) : ℤ := if 0 ≤ x then ⌊x⌋ else ⌈x⌉

/-- The JavaScript remainder operator `%` on (finite, nonzero-divisor)
numbers: `a - b * trunc (a / b)`, so the result takes the dividend's sign. -/
def jsMod (a b : ℝ) : ℝ := a - b * (truncR (a / b) : ℝ)

/-- Modelled from the spec: `satellite.degreesLat`, the external library's
radian-to-degree conversion applied to the elevation (line 97). -/
def degreesLat (x : ℝ) : ℝ := x * (180 / Real.pi)

/-- Modelled from the spec: `satellite.degreesLong`, the external library's
radian-to-degree conversion applied to the wrapped azimuth (line 99). -/
def degreesLong (x : ℝ) : ℝ := x * (180 / Real.pi)

/-- Lines 98-101: the azimuth normalization
`((degreesLong(((raw + π) % (2π)) - π)) + 360) % 360`. -/
def normalizeAzimuth (raw : ℝ) : ℝ :=
  jsMod (degreesLong (jsMod (raw + Real.pi) (2 * Real.pi) - Real.pi) + 360) 360

/-- `Observer` of `server.ts` lines 28-32 (radians and meters). -/
structure Observer where
  latitude : ℝ
  longitude : ℝ
  height : ℝ

/-- `SatellitePass` of `server.ts` lines 19-26, with `Date` strings as
millisecond values; `duration` is in seconds (line 117-118). -/
structure SatellitePass where
  startTime : ℤ
  endTime : ℤ
  maxElevation : ℝ
  startAz : ℝ
  endAz : ℝ
  duration : ℝ

/-- The fields of `currentPass` that are set while a pass is in progress
(lines 105-109): the `PendingPass` accumulator of the spec. -/
structure CurrentPass where
  startTime : ℤ
  startAz : ℝ
  maxElevation : ℝ

/-- The loop's mutable state: `currentPass` and the `passes` array. -/
structure LoopState where
  currentPass : Option CurrentPass
  passes : List SatellitePass

/-- The body of the sampling loop (lines 87-121) at one sampled date.
`sample` is the oracle's raw look angles at that date, `none` when line 90
detects no valid position and the iteration `continue`s.  On a visible
sample (`elevation > 10`) the pass is opened if absent (lines 104-110) and
the running maximum updated (lines 111-113; right after opening the update
compares `elevation > elevation` and is a no-op, which `Option.getD`
renders exactly).  On a non-visible sample with an open pass the pass is
closed and appended (lines 114-121). -/
def stepSample (st : LoopState) (date : ℤ) (sample : Option (ℝ × ℝ)) : LoopState :=
  match sample with
  | none => st
  | some (rawElev, rawAz) =>
      let elevation := degreesLat rawElev
      let azimuth := normalizeAzimuth rawAz
      if elevation > 10 then
        let opened : CurrentPass :=
          { startTime := date, startAz := azimuth, maxElevation := elevation }
        let c := st.currentPass.getD opened
        let c' := if elevation > c.maxElevation
          then { c with maxElevation := elevation } else c
        { st with currentPass := some c' }
      else
        match st.currentPass with
        | some c =>
            { currentPass := none,
              passes := st.passes ++
                [{ startTime := c.startTime, endTime := date,
                   maxElevation := c.maxElevation, startAz := c.startAz,
                   endAz := azimuth,
                   duration := ((date - c.startTime : ℤ) : ℝ) / 1000 }] }
        | none => st

/-- The sampling walk of line 86: `n` remaining iterations, stepping the
date by one minute (60000 ms) each time.  `conv` is the abstract
propagate-and-convert oracle (see the header). -/
def passLoop (conv : Observer → ℤ → Option (ℝ × ℝ)) (observer : Observer) :
    ℕ → ℤ → LoopState → LoopState
  | 0, _, st => st
  | n + 1, date, st =>
      passLoop conv observer n (date + 60000) (stepSample st date (conv observer date))

/-- Number of iterations of `for (date = startTime; date <= endTime;
date.setMinutes(date.getMinutes() + 1))`: the dates visited are
`startTime + k * 60000` for `k < numSamples startTime endTime`. -/
def numSamples (startTime endTime : ℤ) : ℕ :=
  if endTime < startTime then 0 else (endTime - startTime).toNat / 60000 + 1

/-- `calculatePasses` (lines 71-125): run the walk from `startTime` with no
pass in progress and no results, and return the accumulated `passes`; a
still-open `currentPass` at the end of the walk is dropped. -/
def calculatePasses (conv : Observer → ℤ → Option (ℝ × ℝ)) (observer : Observer)
    (startTime endTime : ℤ) : List SatellitePass :=
  (passLoop conv observer (numSamples startTime endTime) startTime
    { currentPass := none, passes := [] }).passes

/-- Raw elevation (radians) whose `degreesLat` image is `x` degrees: what a
propagator stub returns so that the loop sees elevation `x`. -/
def elevRad (x : ℝ) : ℝ := x * (Real.pi / 180)

/-- The observer of the spec's end-to-end test: `(37.7749, -122.4194)` in
radians, height 0 (the values of the repository's own test file). -/
def testObserver : Observer := { latitude := 0.6593, longitude := -2.1366, height := 0 }

/-- The propagator/converter stub of the spec's end-to-end test: elevations
`[5, 5, 15, 20, 15, 5]` degrees (raw look angles in radians, azimuth 0) at
consecutive 1-minute samples starting at `T0 = 0`, no valid position
elsewhere. -/
def endToEndStub : Observer → ℤ → Option (ℝ × ℝ) := fun _ date =>
  if date = 0 then some (elevRad 5, 0)
  else if date = 60000 then some (elevRad 5, 0)
  else if date = 120000 then some (elevRad 15, 0)
  else if date = 180000 then some (elevRad 20, 0)
  else if date = 240000 then some (elevRad 15, 0)
  else if date = 300000 then some (elevRad 5, 0)
  else none

/-- The single pass the end-to-end stub produces. -/
def endToEndPass : SatellitePass :=
  { startTime := 120000, endTime := 300000, maxElevation := 20,
    startAz := normalizeAzimuth 0, endAz := normalizeAzimuth 0, duration := 180 }

end

noncomputable section

/-- The inductive invariant of the sampling walk, at the point where `date`
is the next date to process and `st` the accumulated state: every finalized
pass lies inside the walk so far, was opened by a visible sample and closed
by a non-visible one, and carries the running maximum of its elevations;
the open pass, if any, satisfies the same for its start; passes are in
chronological order. -/
def passInv (conv : Observer → ℤ → Option (ℝ × ℝ)) (observer : Observer)
    (s : ℤ) (date : ℤ) (st : LoopState) : Prop :=
  s ≤ date ∧
  (∀ p ∈ st.passes,
    s ≤ p.startTime ∧ p.startTime ≤ p.endTime ∧ p.endTime + 60000 ≤ date ∧
    10 < p.maxElevation ∧
    (∀ re ra, conv observer p.startTime = some (re, ra) →
      degreesLat re ≤ p.maxElevation) ∧
    (∃ re ra, conv observer p.startTime = some (re, ra) ∧ 10 < degreesLat re ∧
      p.startAz = normalizeAzimuth ra) ∧
    (∃ re ra, conv observer p.endTime = some (re, ra) ∧ degreesLat re ≤ 10 ∧
      p.endAz = normalizeAzimuth ra)) ∧
  List.Pairwise (fun p q : SatellitePass => p.startTime ≤ q.startTime) st.passes ∧
  (∀ c, st.currentPass = some c →
    s ≤ c.startTime ∧ c.startTime ≤ date ∧ 10 < c.maxElevation ∧
    (∀ re ra, conv observer c.startTime = some (re, ra) →
      degreesLat re ≤ c.maxElevation) ∧
    (∃ re ra, conv observer c.startTime = some (re, ra) ∧ 10 < degreesLat re ∧
      c.startAz = normalizeAzimuth ra) ∧
    (∀ p ∈ st.passes, p.startTime ≤ c.startTime))

end

lemma stepSample_none (st : LoopState) (date : ℤ) : stepSample st date none = st := rfl

lemma stepSample_open (st : LoopState) (date : ℤ) (re ra : ℝ)
    (hcur : st.currentPass = none) (h : degreesLat re > 10) :
    stepSample st date (some (re, ra)) =
      ⟨some ⟨date, normalizeAzimuth ra, degreesLat re⟩, st.passes⟩ := by
  simp [stepSample, hcur, h]

lemma stepSample_update (st : LoopState) (date : ℤ) (re ra : ℝ) (c : CurrentPass)
    (hcur : st.currentPass = some c) (h : degreesLat re > 10) :
    stepSample st date (some (re, ra)) =
      ⟨some (if degreesLat re > c.maxElevation
        then ⟨c.startTime, c.startAz, degreesLat re⟩ else c), st.passes⟩ := by
  simp [stepSample, hcur, h]

lemma stepSample_close (st : LoopState) (date : ℤ) (re ra : ℝ) (c : CurrentPass)
    (hcur : st.currentPass = some c) (h : ¬ degreesLat re > 10) :
    stepSample st date (some (re, ra)) =
      ⟨none, st.passes ++ [⟨c.startTime, date, c.maxElevation, c.startAz,
        normalizeAzimuth ra, ((date - c.startTime : ℤ) : ℝ) / 1000⟩]⟩ := by
  simp [stepSample, hcur, h]

lemma stepSample_idle (st : LoopState) (date : ℤ) (re ra : ℝ)
    (hcur : st.currentPass = none) (h : ¬ degreesLat re > 10) :
    stepSample st date (some (re, ra)) = st := by
  simp [stepSample, hcur, h]

lemma passLoop_zero (conv : Observer → ℤ → Option (ℝ × ℝ)) (observer : Observer)
    (date : ℤ) (st : LoopState) : passLoop conv observer 0 date st = st := rfl

lemma passLoop_succ (conv : Observer → ℤ → Option (ℝ × ℝ)) (observer : Observer)
    (n : ℕ) (date : ℤ) (st : LoopState) :
    passLoop conv observer (n + 1) date st =
      passLoop conv observer n (date + 60000) (stepSample st date (conv observer date)) := rfl

lemma degreesLat_elevRad (x : ℝ) : degreesLat (elevRad x) = x := by
  have h : Real.pi ≠ 0 := Real.pi_ne_zero
  field_simp [degreesLat, elevRad]

lemma passInv_mono (conv : Observer → ℤ → Option (ℝ × ℝ)) (observer : Observer)
    (s : ℤ) {date date' : ℤ} (h : date ≤ date') (st : LoopState)
    (hinv : passInv conv observer s date st) :
    passInv conv observer s date' st := by
  obtain ⟨hsd, hP, hSort, hC⟩ := hinv
  refine ⟨le_trans hsd h, ?_, hSort, ?_⟩
  · intro p hp
    obtain ⟨h1, h2, h3, h4, h5, h6, h7⟩ := hP p hp
    exact ⟨h1, h2, le_trans h3 h, h4, h5, h6, h7⟩
  · intro c hc
    obtain ⟨h1, h2, h3, h4, h5, h6⟩ := hC c hc
    exact ⟨h1, le_trans h2 h, h3, h4, h5, h6⟩

lemma passInv_step (conv : Observer → ℤ → Option (ℝ × ℝ)) (observer : Observer)
    (s date : ℤ) (st : LoopState) (hinv : passInv conv observer s date st) :
    passInv conv observer s (date + 60000) (stepSample st date (conv observer date)) := by
  obtain ⟨hsd, hP, hSort, hC⟩ := hinv
  cases hc : conv observer date with
  | none =>
      rw [stepSample_none]
      exact passInv_mono conv observer s (by omega) st ⟨hsd, hP, hSort, hC⟩
  | some pr =>
      obtain ⟨re, ra⟩ := pr
      by_cases helev : degreesLat re > 10
      · cases hcur : st.currentPass with
        | none =>
            rw [stepSample_open st date re ra hcur helev]
            refine ⟨by omega, ?_, hSort, ?_⟩
            · intro p hp
              obtain ⟨h1, h2, h3, h4, h5, h6, h7⟩ := hP p hp
              exact ⟨h1, h2, by omega, h4, h5, h6, h7⟩
            · intro c hcEq
              simp only [Option.some.injEq] at hcEq
              subst hcEq
              refine ⟨hsd, by simp only []; omega, helev, ?_,
                ⟨re, ra, hc, helev, rfl⟩, ?_⟩
              · intro re' ra' h'
                rw [hc] at h'
                simp only [Option.some.injEq, Prod.mk.injEq] at h'
                obtain ⟨hre, -⟩ := h'
                rw [← hre]
              · intro p hp
                obtain ⟨-, h2, h3, -⟩ := hP p hp
                simp only []
                omega
        | some c0 =>
            rw [stepSample_update st date re ra c0 hcur helev]
            obtain ⟨g1, g2, g3, g4, g5, g6⟩ := hC c0 hcur
            refine ⟨by omega, ?_, hSort, ?_⟩
            · intro p hp
              obtain ⟨h1, h2, h3, h4, h5, h6, h7⟩ := hP p hp
              exact ⟨h1, h2, by omega, h4, h5, h6, h7⟩
            · intro c hcEq
              simp only [Option.some.injEq] at hcEq
              by_cases hmax : degreesLat re > c0.maxElevation
              · rw [if_pos hmax] at hcEq
                subst hcEq
                refine ⟨g1, by simp only []; omega, helev, ?_, ?_, g6⟩
                · intro re' ra' h'
                  have := g4 re' ra' h'
                  simp only
                  linarith
                · obtain ⟨re0, ra0, hc0, h10, haz⟩ := g5
                  exact ⟨re0, ra0, hc0, h10, haz⟩
              · rw [if_neg hmax] at hcEq
                subst hcEq
                exact ⟨g1, by omega, g3, g4, g5, g6⟩
      · cases hcur : st.currentPass with
        | some c0 =>
            rw [stepSample_close st date re ra c0 hcur helev]
            obtain ⟨g1, g2, g3, g4, g5, g6⟩ := hC c0 hcur
            refine ⟨by omega, ?_, ?_, ?_⟩
            · intro p hp
              rcases List.mem_append.mp hp with hold | hnew
              · obtain ⟨h1, h2, h3, h4, h5, h6, h7⟩ := hP p hold
                exact ⟨h1, h2, by omega, h4, h5, h6, h7⟩
              · simp only [List.mem_singleton] at hnew
                subst hnew
                exact ⟨g1, g2, by simp only []; omega, g3, g4, g5,
                  ⟨re, ra, hc, not_lt.mp helev, rfl⟩⟩
            · rw [List.pairwise_append]
              refine ⟨hSort, List.pairwise_singleton _ _, ?_⟩
              intro a ha b hb
              simp only [List.mem_singleton] at hb
              subst hb
              exact g6 a ha
            · intro c hcEq
              simp at hcEq
        | none =>
            rw [stepSample_idle st date re ra hcur helev]
            exact passInv_mono conv observer s (by omega) st ⟨hsd, hP, hSort, hC⟩

lemma passInv_loop (conv : Observer → ℤ → Option (ℝ × ℝ)) (observer : Observer)
    (s : ℤ) : ∀ (n : ℕ) (date : ℤ) (st : LoopState),
    passInv conv observer s date st →
    passInv conv observer s (date + 60000 * n) (passLoop conv observer n date st) := by
  intro n
  induction n with
  | zero => intro date st h; simpa using h
  | succ k ih =>
      intro date st h
      have h1 := passInv_step conv observer s date st h
      have h2 := ih (date + 60000) _ h1
      have harith : date + 60000 * ((k + 1 : ℕ) : ℤ) = date + 60000 + 60000 * (k : ℤ) := by
        push_cast
        ring
      rw [passLoop_succ, harith]
      exact h2

lemma passInv_init (conv : Observer → ℤ → Option (ℝ × ℝ)) (observer : Observer)
    (s : ℤ) : passInv conv observer s s ⟨none, []⟩ := by
  refine ⟨le_refl s, by simp, by simp, ?_⟩
  intro c hc
  simp at hc

lemma calculatePasses_sorted (conv : Observer → ℤ → Option (ℝ × ℝ))
    (observer : Observer) (s e : ℤ) :
    List.Pairwise (fun p q : SatellitePass => p.startTime ≤ q.startTime)
      (calculatePasses conv observer s e) := by
  have h := passInv_loop conv observer s (numSamples s e) s ⟨none, []⟩
    (passInv_init conv observer s)
  exact h.2.2.1

lemma calculatePasses_mem (conv : Observer → ℤ → Option (ℝ × ℝ))
    (observer : Observer) (s e : ℤ) (p : SatellitePass)
    (hp : p ∈ calculatePasses conv observer s e) :
    s ≤ p.startTime ∧ p.startTime ≤ p.endTime ∧ p.endTime ≤ e ∧
    10 < p.maxElevation ∧
    (∀ re ra, conv observer p.startTime = some (re, ra) →
      degreesLat re ≤ p.maxElevation) ∧
    (∃ re ra, conv observer p.startTime = some (re, ra) ∧ 10 < degreesLat re ∧
      p.startAz = normalizeAzimuth ra) ∧
    (∃ re ra, conv observer p.endTime = some (re, ra) ∧ degreesLat re ≤ 10 ∧
      p.endAz = normalizeAzimuth ra) := by
  have h := passInv_loop conv observer s (numSamples s e) s ⟨none, []⟩
    (passInv_init conv observer s)
  obtain ⟨-, hP, -, -⟩ := h
  obtain ⟨h1, h2, h3, h4, h5, h6, h7⟩ := hP p hp
  refine ⟨h1, h2, ?_, h4, h5, h6, h7⟩
  by_cases hse : e < s
  · exfalso
    have hz : numSamples s e = 0 := by
      unfold numSamples
      rw [if_pos hse]
    rw [calculatePasses, hz, passLoop_zero] at hp
    simp at hp
  · push_neg at hse
    have hns : numSamples s e = (e - s).toNat / 60000 + 1 := by
      unfold numSamples
      rw [if_neg (by omega)]
    rw [hns] at h3
    obtain ⟨q, hqdef⟩ : ∃ q, (e - s).toNat / 60000 = q := ⟨_, rfl⟩
    rw [hqdef] at h3
    have hq : q * 60000 ≤ (e - s).toNat := hqdef ▸ Nat.div_mul_le_self _ _
    omega

lemma truncR_of_nonneg {x : ℝ} (h : 0 ≤ x) : truncR x = ⌊x⌋ := if_pos h

lemma truncR_of_neg {x : ℝ} (h : ¬ 0 ≤ x) : truncR x = ⌈x⌉ := if_neg h

lemma jsMod_eq_fract (a b : ℝ) (hb : b ≠ 0) (ha : 0 ≤ a / b) :
    jsMod a b = b * Int.fract (a / b) := by
  unfold jsMod
  rw [truncR_of_nonneg ha, Int.fract, mul_sub]
  have hba : b * (a / b) = a := by field_simp
  rw [hba]

lemma jsMod_nonneg_bounds (a b : ℝ) (hb : 0 < b) (ha : 0 ≤ a) :
    0 ≤ jsMod a b ∧ jsMod a b < b := by
  have hab : 0 ≤ a / b := div_nonneg ha hb.le
  rw [jsMod_eq_fract a b hb.ne' hab]
  constructor
  · exact mul_nonneg hb.le (Int.fract_nonneg _)
  · calc b * Int.fract (a / b) < b * 1 :=
        mul_lt_mul_of_pos_left (Int.fract_lt_one _) hb
    _ = b := mul_one b

lemma normalizeAzimuth_range (raw : ℝ) (h : -Real.pi ≤ raw) :
    0 ≤ normalizeAzimuth raw ∧ normalizeAzimuth raw < 360 := by
  have hpi := Real.pi_pos
  have h2pi : (0:ℝ) < 2 * Real.pi := by linarith
  have ha : 0 ≤ raw + Real.pi := by linarith
  obtain ⟨hm0, hm1⟩ := jsMod_nonneg_bounds (raw + Real.pi) (2 * Real.pi) h2pi ha
  unfold normalizeAzimuth
  have hw0 : -Real.pi ≤ jsMod (raw + Real.pi) (2 * Real.pi) - Real.pi := by linarith
  have hw1 : jsMod (raw + Real.pi) (2 * Real.pi) - Real.pi < Real.pi := by linarith
  have hpos : (0:ℝ) < 180 / Real.pi := by positivity
  have hlo : (-Real.pi) * (180 / Real.pi) = -180 := by
    field_simp
    ring
  have hhi : Real.pi * (180 / Real.pi) = 180 := by
    field_simp
  have hd0 : -180 ≤ degreesLong (jsMod (raw + Real.pi) (2 * Real.pi) - Real.pi) := by
    unfold degreesLong
    calc (-180 : ℝ) = (-Real.pi) * (180 / Real.pi) := hlo.symm
    _ ≤ (jsMod (raw + Real.pi) (2 * Real.pi) - Real.pi) * (180 / Real.pi) :=
        mul_le_mul_of_nonneg_right hw0 hpos.le
  have hd1 : degreesLong (jsMod (raw + Real.pi) (2 * Real.pi) - Real.pi) < 180 := by
    unfold degreesLong
    calc (jsMod (raw + Real.pi) (2 * Real.pi) - Real.pi) * (180 / Real.pi)
        < Real.pi * (180 / Real.pi) := mul_lt_mul_of_pos_right hw1 hpos
    _ = 180 := hhi
  have hsum : 0 ≤ degreesLong (jsMod (raw + Real.pi) (2 * Real.pi) - Real.pi) + 360 := by
    linarith
  exact jsMod_nonneg_bounds _ 360 (by norm_num) hsum

lemma normalizeAzimuth_neg_five_pi_half : normalizeAzimuth (-(5 * Real.pi / 2)) = -90 := by
  have hpne : Real.pi ≠ 0 := Real.pi_ne_zero
  unfold normalizeAzimuth
  have harg : -(5 * Real.pi / 2) + Real.pi = -(3 * Real.pi / 2) := by ring
  rw [harg]
  have hdiv : -(3 * Real.pi / 2) / (2 * Real.pi) = -(3 / 4 : ℝ) := by
    rw [div_eq_iff (by positivity : (2:ℝ) * Real.pi ≠ 0)]
    ring
  have htr : truncR (-(3 * Real.pi / 2) / (2 * Real.pi)) = 0 := by
    rw [hdiv, truncR_of_neg (by norm_num)]
    rw [Int.ceil_eq_iff]
    push_cast
    norm_num
  have hjm : jsMod (-(3 * Real.pi / 2)) (2 * Real.pi) = -(3 * Real.pi / 2) := by
    unfold jsMod
    rw [htr]
    push_cast
    ring
  rw [hjm]
  have hw : -(3 * Real.pi / 2) - Real.pi = -(5 * Real.pi / 2) := by ring
  rw [hw]
  have hdeg : degreesLong (-(5 * Real.pi / 2)) = -450 := by
    unfold degreesLong
    field_simp
    ring
  rw [hdeg]
  have hsum : (-450 : ℝ) + 360 = -90 := by norm_num
  rw [hsum]
  have htr2 : truncR ((-90 : ℝ) / 360) = 0 := by
    have : ((-90 : ℝ) / 360) = -(1 / 4 : ℝ) := by norm_num
    rw [this, truncR_of_neg (by norm_num)]
    rw [Int.ceil_eq_iff]
    push_cast
    norm_num
  unfold jsMod
  rw [htr2]
  push_cast
  ring

lemma endToEnd_eval :
    calculatePasses endToEndStub testObserver 0 300000 = [endToEndPass] := by
  have hn : numSamples 0 300000 = 6 := by decide
  have hs0 : endToEndStub testObserver 0 = some (elevRad 5, 0) := rfl
  have hs1 : endToEndStub testObserver 60000 = some (elevRad 5, 0) := rfl
  have hs2 : endToEndStub testObserver 120000 = some (elevRad 15, 0) := rfl
  have hs3 : endToEndStub testObserver 180000 = some (elevRad 20, 0) := rfl
  have hs4 : endToEndStub testObserver 240000 = some (elevRad 15, 0) := rfl
  have hs5 : endToEndStub testObserver 300000 = some (elevRad 5, 0) := rfl
  have st0 : stepSample ⟨none, []⟩ 0 (endToEndStub testObserver 0) = ⟨none, []⟩ := by
    rw [hs0]
    exact stepSample_idle _ _ _ _ rfl (by rw [degreesLat_elevRad]; norm_num)
  have st1 : stepSample ⟨none, []⟩ 60000 (endToEndStub testObserver 60000)
      = ⟨none, []⟩ := by
    rw [hs1]
    exact stepSample_idle _ _ _ _ rfl (by rw [degreesLat_elevRad]; norm_num)
  have st2 : stepSample ⟨none, []⟩ 120000 (endToEndStub testObserver 120000)
      = ⟨some ⟨120000, normalizeAzimuth 0, 15⟩, []⟩ := by
    rw [hs2, stepSample_open _ _ _ _ rfl (by rw [degreesLat_elevRad]; norm_num)]
    norm_num [degreesLat_elevRad]
  have st3 : stepSample ⟨some ⟨120000, normalizeAzimuth 0, 15⟩, []⟩ 180000
      (endToEndStub testObserver 180000)
      = ⟨some ⟨120000, normalizeAzimuth 0, 20⟩, []⟩ := by
    rw [hs3, stepSample_update _ _ _ _ _ rfl (by rw [degreesLat_elevRad]; norm_num)]
    norm_num [degreesLat_elevRad]
  have st4 : stepSample ⟨some ⟨120000, normalizeAzimuth 0, 20⟩, []⟩ 240000
      (endToEndStub testObserver 240000)
      = ⟨some ⟨120000, normalizeAzimuth 0, 20⟩, []⟩ := by
    rw [hs4, stepSample_update _ _ _ _ _ rfl (by rw [degreesLat_elevRad]; norm_num)]
    norm_num [degreesLat_elevRad]
  have st5 : stepSample ⟨some ⟨120000, normalizeAzimuth 0, 20⟩, []⟩ 300000
      (endToEndStub testObserver 300000)
      = ⟨none, [endToEndPass]⟩ := by
    rw [hs5, stepSample_close _ _ _ _ _ rfl (by rw [degreesLat_elevRad]; norm_num)]
    unfold endToEndPass
    norm_num
  unfold calculatePasses
  rw [hn]
  rw [show (6 : ℕ) = 5 + 1 from rfl, passLoop_succ, st0]
  norm_num
  rw [show (5 : ℕ) = 4 + 1 from rfl, passLoop_succ, st1]
  norm_num
  rw [show (4 : ℕ) = 3 + 1 from rfl, passLoop_succ, st2]
  norm_num
  rw [show (3 : ℕ) = 2 + 1 from rfl, passLoop_succ, st3]
  norm_num
  rw [show (2 : ℕ) = 1 + 1 from rfl, passLoop_succ, st4]
  norm_num
  rw [show (1 : ℕ) = 0 + 1 from rfl, passLoop_succ, st5, passLoop_zero]

/-- C1: with a propagator/converter stub returning elevations
`[5, 5, 15, 20, 15, 5]` degrees at consecutive 1-minute samples starting at
`T0 = 0`, `calculatePasses` returns exactly one pass, with
`startTime = T0 + 2 min`, `endTime = T0 + 5 min`, `maxElevation = 20` and a
duration of 180 seconds. -/
theorem C1_end_to_end_single_pass :
    ∃ p, calculatePasses endToEndStub testObserver 0 300000 = [p] ∧
      p.startTime = 120000 ∧ p.endTime = 300000 ∧
      p.maxElevation = 20 ∧ p.duration = 180 :=
  ⟨endToEndPass, endToEnd_eval, rfl, rfl, rfl, rfl⟩

/-- C2 (counterexample): the double normalization of lines 98-101 does not
map every raw azimuth into `[0, 360)`: for the raw azimuth `-5π/2` the
JavaScript `%` wraps `raw + π` into `(-2π, 0]` rather than `[0, 2π)`, and
the normalization yields `-90`, which is negative. -/
theorem C2_counterexample_neg_raw_azimuth :
    normalizeAzimuth (-(5 * Real.pi / 2)) = -90 ∧
    ¬ (0 ≤ normalizeAzimuth (-(5 * Real.pi / 2)) ∧
        normalizeAzimuth (-(5 * Real.pi / 2)) < 360) := by
  refine ⟨normalizeAzimuth_neg_five_pi_half, ?_⟩
  rw [normalizeAzimuth_neg_five_pi_half]
  norm_num

/-- C2 (amended): when every raw azimuth the converter produces is at least
`-π` — which holds for the actual converter, whose azimuths lie in
`[0, 2π]` — the normalization lands in `[0, 360)`, and hence the `startAz`
and `endAz` of every returned pass lie in `[0, 360)`. -/
theorem C2_pass_azimuths_in_range (conv : Observer → ℤ → Option (ℝ × ℝ))
    (observer : Observer) (s e : ℤ)
    (hconv : ∀ d re ra, conv observer d = some (re, ra) → -Real.pi ≤ ra)
    (p : SatellitePass) (hp : p ∈ calculatePasses conv observer s e) :
    (0 ≤ p.startAz ∧ p.startAz < 360) ∧ (0 ≤ p.endAz ∧ p.endAz < 360) := by
  obtain ⟨-, -, -, -, -, hstart, hend⟩ := calculatePasses_mem conv observer s e p hp
  obtain ⟨re1, ra1, hc1, -, haz1⟩ := hstart
  obtain ⟨re2, ra2, hc2, -, haz2⟩ := hend
  rw [haz1, haz2]
  exact ⟨normalizeAzimuth_range ra1 (hconv _ _ _ hc1),
    normalizeAzimuth_range ra2 (hconv _ _ _ hc2)⟩

lemma endToEndStub_raw_azimuth (d : ℤ) (re ra : ℝ)
    (h : endToEndStub testObserver d = some (re, ra)) : -Real.pi ≤ ra := by
  unfold endToEndStub at h
  split_ifs at h <;>
    simp only [Option.some.injEq, Prod.mk.injEq] at h <;>
    [skip; skip; skip; skip; skip; skip] <;>
    (obtain ⟨-, hra⟩ := h; rw [← hra]; linarith [Real.pi_pos])

/-- Witness for C2 (amended) at the end-to-end stub, whose raw azimuths are
all 0. -/
theorem C2_pass_azimuths_witness :
    (0 ≤ endToEndPass.startAz ∧ endToEndPass.startAz < 360) ∧
    (0 ≤ endToEndPass.endAz ∧ endToEndPass.endAz < 360) :=
  C2_pass_azimuths_in_range endToEndStub testObserver 0 300000
    (fun d re ra h => endToEndStub_raw_azimuth d re ra h) endToEndPass
    (by rw [endToEnd_eval]; exact List.mem_singleton_self _)

/-- C3: every pass `calculatePasses` returns was closed by a
visible-to-not-visible transition within the window: its `endTime` is a
sampled date in `[startTime, endTime]` at which the converter yielded a
sample whose elevation is at most 10 degrees.  A `PendingPass` still open
when the walk reaches the window end has no such closing sample and is
never appended. -/
theorem C3_only_closed_passes_returned (conv : Observer → ℤ → Option (ℝ × ℝ))
    (observer : Observer) (s e : ℤ) (p : SatellitePass)
    (hp : p ∈ calculatePasses conv observer s e) :
    s ≤ p.endTime ∧ p.endTime ≤ e ∧
    ∃ re ra, conv observer p.endTime = some (re, ra) ∧ degreesLat re ≤ 10 := by
  obtain ⟨h1, h2, h3, -, -, -, hend⟩ := calculatePasses_mem conv observer s e p hp
  obtain ⟨re, ra, hc, hle, -⟩ := hend
  exact ⟨by omega, h3, re, ra, hc, hle⟩

/-- Witness for C3 at the end-to-end stub: the returned pass closes at
`300000`, where the stub's elevation is 5 degrees. -/
theorem C3_witness :
    0 ≤ endToEndPass.endTime ∧ endToEndPass.endTime ≤ 300000 ∧
    ∃ re ra, endToEndStub testObserver endToEndPass.endTime = some (re, ra) ∧
      degreesLat re ≤ 10 :=
  C3_only_closed_passes_returned endToEndStub testObserver 0 300000 endToEndPass
    (by rw [endToEnd_eval]; exact List.mem_singleton_self _)

/-- C4: a sample at which propagation yields no valid position is skipped:
the walk continues to the next date and neither the pending pass nor the
accumulated results change. -/
theorem C4_invalid_sample_skipped (conv : Observer → ℤ → Option (ℝ × ℝ))
    (observer : Observer) (n : ℕ) (date : ℤ) (st : LoopState)
    (h : conv observer date = none) :
    passLoop conv observer (n + 1) date st =
      passLoop conv observer n (date + 60000) st ∧
    (stepSample st date (conv observer date)).currentPass = st.currentPass ∧
    (stepSample st date (conv observer date)).passes = st.passes := by
  rw [passLoop_succ, h, stepSample_none]
  exact ⟨rfl, rfl, rfl⟩

/-- Witness for C4 with an always-failing propagator and an open pass in
progress. -/
theorem C4_witness :
    passLoop (fun _ _ => none) testObserver 1 0
        ⟨some ⟨0, 0, 15⟩, []⟩ =
      passLoop (fun _ _ => none) testObserver 0 60000 ⟨some ⟨0, 0, 15⟩, []⟩ ∧
    (stepSample ⟨some ⟨0, 0, 15⟩, []⟩ 0
        ((fun (_ : Observer) (_ : ℤ) => (none : Option (ℝ × ℝ))) testObserver 0)).currentPass =
      (⟨some ⟨0, 0, 15⟩, []⟩ : LoopState).currentPass ∧
    (stepSample ⟨some ⟨0, 0, 15⟩, []⟩ 0
        ((fun (_ : Observer) (_ : ℤ) => (none : Option (ℝ × ℝ))) testObserver 0)).passes =
      (⟨some ⟨0, 0, 15⟩, []⟩ : LoopState).passes :=
  C4_invalid_sample_skipped (fun _ _ => none) testObserver 0 0 ⟨some ⟨0, 0, 15⟩, []⟩ rfl

/-- C5: a cache entry younger than the 24-hour TTL makes `fetchTLE` return
the cached element set, issue no remote retrieval, and leave the cache
unchanged. -/
theorem C5_cache_hit_no_network (cache : TLECache) (now : ℤ) (net : Option String)
    (satelliteId : String) (entry : CacheEntry)
    (hentry : cache satelliteId = some entry)
    (hfresh : now - entry.timestamp < TLE_CACHE_DURATION) :
    fetchTLE cache now net satelliteId = ⟨.ok entry.tle, cache, false⟩ := by
  have h : cacheHit cache satelliteId now = some entry.tle := by
    simp [cacheHit, hentry, hfresh]
  unfold fetchTLE
  rw [h]

/-- Witness for C5: a fresh entry for `"25544"` is returned without any
network call. -/
theorem C5_witness :
    fetchTLE (fun k => if k = "25544" then some ⟨⟨"ISS (ZARYA)", "1 25544U", "2 25544"⟩, 0⟩
        else none) 1000 (some "unused") "25544" =
      ⟨.ok ⟨"ISS (ZARYA)", "1 25544U", "2 25544"⟩,
        (fun k => if k = "25544" then some ⟨⟨"ISS (ZARYA)", "1 25544U", "2 25544"⟩, 0⟩
          else none), false⟩ :=
  C5_cache_hit_no_network _ 1000 (some "unused") "25544"
    ⟨⟨"ISS (ZARYA)", "1 25544U", "2 25544"⟩, 0⟩ (by decide) (by decide)

/-- C6: on a cache miss or stale entry, a failed remote retrieval — the
`fetch` rejecting, or the response text splitting into fewer than three
lines — makes `fetchTLE` throw a `Failed to fetch TLE data` error, and the
cache is left unchanged (nothing partial is stored). -/
theorem C6_fetch_failure_no_cache_write (cache : TLECache) (now : ℤ)
    (net : Option String) (satelliteId : String)
    (hmiss : cacheHit cache satelliteId now = none)
    (hfail : net = none ∨ ∃ data, net = some data ∧ (data.splitOn "\n").length < 3) :
    (∃ msg, (fetchTLE cache now net satelliteId).result = .error msg) ∧
    (fetchTLE cache now net satelliteId).cache = cache := by
  have hft : fetchTLE cache now net satelliteId = fetchRemote cache now net satelliteId := by
    unfold fetchTLE
    rw [hmiss]
  rw [hft]
  rcases hfail with hnone | ⟨data, hdata, hlen⟩
  · subst hnone
    exact ⟨⟨_, rfl⟩, rfl⟩
  · subst hdata
    rcases hl : data.splitOn "\n" with _ | ⟨a, _ | ⟨b, _ | ⟨c, t⟩⟩⟩
    · have hr : fetchRemote cache now (some data) satelliteId =
          ⟨.error "Failed to fetch TLE data: TypeError", cache, true⟩ := by
        simp [fetchRemote, hl]
      rw [hr]
      exact ⟨⟨_, rfl⟩, rfl⟩
    · have hr : fetchRemote cache now (some data) satelliteId =
          ⟨.error "Failed to fetch TLE data: TypeError", cache, true⟩ := by
        simp [fetchRemote, hl]
      rw [hr]
      exact ⟨⟨_, rfl⟩, rfl⟩
    · have hr : fetchRemote cache now (some data) satelliteId =
          ⟨.error "Failed to fetch TLE data: TypeError", cache, true⟩ := by
        simp [fetchRemote, hl]
      rw [hr]
      exact ⟨⟨_, rfl⟩, rfl⟩
    · exfalso
      rw [hl] at hlen
      simp at hlen
      omega

/-- Witness for C6: an empty cache and a rejected remote `fetch` yield a
thrown error and an unchanged (still empty) cache. -/
theorem C6_witness :
    (∃ msg, (fetchTLE (fun _ => none) 0 none "25544").result = .error msg) ∧
    (fetchTLE (fun _ => none) 0 none "25544").cache = (fun _ => none : TLECache) :=
  C6_fetch_failure_no_cache_write (fun _ => none) 0 none "25544" rfl (Or.inl rfl)

/-- C7: for every converter, observer and window with
`startTime ≤ endTime`, the returned passes are in non-decreasing
`startTime` order and every pass has `endTime ≥ startTime`. -/
theorem C7_passes_chronological (conv : Observer → ℤ → Option (ℝ × ℝ))
    (observer : Observer) (s e : ℤ) (hse : s ≤ e) :
    List.Pairwise (fun p q : SatellitePass => p.startTime ≤ q.startTime)
      (calculatePasses conv observer s e) ∧
    ∀ p ∈ calculatePasses conv observer s e, p.startTime ≤ p.endTime := by
  refine ⟨calculatePasses_sorted conv observer s e, ?_⟩
  intro p hp
  exact (calculatePasses_mem conv observer s e p hp).2.1

/-- Witness for C7 at the end-to-end stub. -/
theorem C7_witness :
    List.Pairwise (fun p q : SatellitePass => p.startTime ≤ q.startTime)
      (calculatePasses endToEndStub testObserver 0 300000) ∧
    ∀ p ∈ calculatePasses endToEndStub testObserver 0 300000,
      p.startTime ≤ p.endTime :=
  C7_passes_chronological endToEndStub testObserver 0 300000 (by norm_num)

lemma parseFloat_91 : parseFloat "91" = some 91 := by
  have h : parseFloatParts "91" = some (false, ['9', '1'], []) := by decide
  have hd : digitsToNat ['9', '1'] = 91 := by decide
  have hd0 : digitsToNat [] = 0 := rfl
  unfold parseFloat
  rw [h]
  simp [hd, hd0]

lemma parseFloat_45 : parseFloat "45" = some 45 := by
  have h : parseFloatParts "45" = some (false, ['4', '5'], []) := by decide
  have hd : digitsToNat ['4', '5'] = 45 := by decide
  have hd0 : digitsToNat [] = 0 := rfl
  unfold parseFloat
  rw [h]
  simp [hd, hd0]

lemma parseFloat_abc : parseFloat "abc" = none := by
  have h : parseFloatParts "abc" = none := by decide
  unfold parseFloat
  rw [h]

/-- C8: a request (with all three parameters present) whose parsed latitude
falls outside `[-90, 90]` or whose parsed longitude falls outside
`[-180, 180]` is answered with the `Invalid coordinates` response, before
the fetcher or the pass detector is invoked. -/
theorem C8_invalid_coordinates_rejected (satelliteId lat lng : String)
    (hsid : satelliteId ≠ "") (hlat : lat ≠ "") (hlng : lng ≠ "")
    (h : (∃ x, parseFloat lat = some x ∧ (x < -90 ∨ 90 < x)) ∨
         (∃ y, parseFloat lng = some y ∧ (y < -180 ∨ 180 < y))) :
    validateRequest satelliteId lat lng = .invalidCoords := by
  have hb : (jsLt (parseFloat lat) (some (-90)) || jsLt (some 90) (parseFloat lat)
      || jsLt (parseFloat lng) (some (-180)) || jsLt (some 180) (parseFloat lng)) = true := by
    rcases h with ⟨x, hx, hlo | hhi⟩ | ⟨y, hy, hlo | hhi⟩
    · rw [hx]
      simp [jsLt, hlo]
    · rw [hx]
      simp [jsLt, hhi]
    · rw [hy]
      simp [jsLt, hlo]
    · rw [hy]
      simp [jsLt, hhi]
  simp [validateRequest, hb, hsid, hlat, hlng]

/-- Witness for C8: `lat = "91"` is rejected as the spec's example
requires. -/
theorem C8_witness : validateRequest "25544" "91" "-122.4194" = .invalidCoords :=
  C8_invalid_coordinates_rejected "25544" "91" "-122.4194"
    (by decide) (by decide) (by decide)
    (Or.inl ⟨91, parseFloat_91, Or.inr (by norm_num)⟩)

/-- C9: a request with the non-empty, non-numeric latitude `"abc"` parses
to `NaN`, every range comparison on `NaN` is false, and the request
proceeds past validation into the fetch and pass computation instead of
receiving the `Invalid coordinates` response. -/
theorem C9_nan_coordinates_bypass_validation :
    parseFloat "abc" = none ∧
    validateRequest "25544" "abc" "45" = .proceed none (some 45) := by
  refine ⟨parseFloat_abc, ?_⟩
  unfold validateRequest
  rw [if_neg (by decide)]
  simp only [parseFloat_abc, parseFloat_45]
  norm_num [jsLt]

/-- C10: every returned pass has `maxElevation` strictly above the
10-degree threshold, and `maxElevation` dominates the elevation of the
sample that opened the pass (the sample at the pass's `startTime`): the
maximum only ever grows while the pass is open. -/
theorem C10_max_elevation_dominates (conv : Observer → ℤ → Option (ℝ × ℝ))
    (observer : Observer) (s e : ℤ) (p : SatellitePass)
    (hp : p ∈ calculatePasses conv observer s e) :
    10 < p.maxElevation ∧
    ∀ re ra, conv observer p.startTime = some (re, ra) →
      degreesLat re ≤ p.maxElevation := by
  obtain ⟨-, -, -, h4, h5, -, -⟩ := calculatePasses_mem conv observer s e p hp
  exact ⟨h4, h5⟩

/-- Witness for C10 at the end-to-end stub: the returned pass has
`maxElevation = 20 > 10`, at least the 15 degrees of its opening sample. -/
theorem C10_witness :
    10 < endToEndPass.maxElevation ∧
    ∀ re ra, endToEndStub testObserver endToEndPass.startTime = some (re, ra) →
      degreesLat re ≤ endToEndPass.maxElevation :=
  C10_max_elevation_dominates endToEndStub testObserver 0 300000 endToEndPass
    (by rw [endToEnd_eval]; exact List.mem_singleton_self _)
